import Mathlib

/-!
# Verification of the `LongHorizon_with_NHITS.ipynb` notebook

The repository consists of a single Jupyter notebook,
`nbs/examples/LongHorizon_with_NHITS.ipynb`.  We give a shallow embedding of
the notebook: a small Python abstract syntax (expressions, statements, cells)
and a literal transcription of every cell of the notebook into that syntax.
The claims about the notebook (ordering of its top-level operations, absence
of locally defined logic, the shape of its search-space dictionary, absence of
error handling and concurrency constructs, and the arithmetic of its split
sizes, index accesses and reshape calls) are then stated and proved over this
transcription and over exact rational / natural-number models of the relevant
numeric expressions.
-/

set_option maxRecDepth 100000

namespace NB

/-! ## Python abstract syntax

Expressions, argument lists and keyword-argument lists form a mutual
inductive family (keeping argument lists as their own inductive keeps all
recursions structural).  The constructors cover exactly the Python
constructs that occur in the notebook, plus the constructs whose *absence*
the specification asserts (`tryStmt`, `raiseStmt`, `funcDef`, `classDef`,
`awaitE`), so that their absence is a provable property of the
transcription rather than an artifact of the syntax. -/

mutual

inductive PyExpr where
  | name (s : String)
  | intLit (n : Int)
  /-- Scientific float literal `m * 10 ^ e` (e.g. `1e-3` is `sciLit 1 (-3)`,
  `.2` is `sciLit 2 (-1)`). -/
  | sciLit (m e : Int)
  | strLit (s : String)
  /-- A bare `:` slice, as in `y_true[i, j, :]`. -/
  | sliceAll
  | attr (e : PyExpr) (f : String)
  | call (f : PyExpr) (args : PyExprs) (kwargs : PyKwargs)
  | subscript (e : PyExpr) (i : PyExpr)
  | listLit (xs : PyExprs)
  | tupleLit (xs : PyExprs)
  | dictLit (entries : PyKwargs)
  | binOp (op : String) (a b : PyExpr)
  | cmpOp (op : String) (a b : PyExpr)
  /-- An f-string; parts are string literals and interpolated expressions. -/
  | fstr (parts : PyExprs)
  | awaitE (e : PyExpr)

inductive PyExprs where
  | nil
  | cons (e : PyExpr) (rest : PyExprs)

inductive PyKwargs where
  | nil
  | cons (k : String) (v : PyExpr) (rest : PyKwargs)

end

/-- Build a `PyExprs` argument list from a `List`. -/
def listE : List PyExpr → PyExprs
  | [] => PyExprs.nil
  | e :: es => PyExprs.cons e (listE es)

/-- Build a `PyKwargs` keyword-argument list from a `List`. -/
def listK : List (String × PyExpr) → PyKwargs
  | [] => PyKwargs.nil
  | (k, v) :: es => PyKwargs.cons k v (listK es)

mutual

inductive PyStmt where
  /-- Assignment; `targets` has one element except for tuple unpacking. -/
  | assign (targets : PyExprs) (value : PyExpr)
  | exprStmt (e : PyExpr)
  /-- `import m` or `import m as a` (`asName` is `m`'s root when no alias). -/
  | importMod (m : String) (asName : String)
  /-- `from m import n1, n2, ...` -/
  | importFrom (m : String) (names : List String)
  | forLoop (target : PyExpr) (iter : PyExpr) (body : PyStmts)
  | ifStmt (cond : PyExpr) (thn els : PyStmts)
  | tryStmt (body handler : PyStmts)
  | raiseStmt (e : PyExpr)
  | funcDef (nm : String) (params : List String) (isAsync : Bool) (body : PyStmts)
  | classDef (nm : String) (body : PyStmts)
  /-- An IPython cell magic such as `%%capture`. -/
  | magic (s : String)
  /-- An IPython shell escape `!cmd`, which runs `cmd` in a child process. -/
  | shell (s : String)

inductive PyStmts where
  | nil
  | cons (s : PyStmt) (rest : PyStmts)

end

/-- Build a `PyStmts` block from a `List`. -/
def listS : List PyStmt → PyStmts
  | [] => PyStmts.nil
  | s :: ss => PyStmts.cons s (listS ss)

/-- A notebook cell: markdown (prose elided, a short title is kept for
traceability) or code. -/
inductive Cell where
  | markdown (title : String)
  | code (stmts : List PyStmt)

open PyExpr PyStmt

/-! ## Transcription of the notebook

One Lean definition per code cell, in notebook order.  Statement-level
transcription is literal: every statement of every code cell appears, with
its full expression structure. -/

/-- Cell 1 (code): `%%capture` + `!pip install neuralforecast datasetsforecast`. -/
def cellInstall : Cell :=
  Cell.code
    [ magic "%%capture",
      shell "pip install neuralforecast datasetsforecast" ]

/-- Cell 2 (code): the import block. -/
def cellImports : Cell :=
  Cell.code
    [ importMod "torch" "torch",
      importMod "numpy" "np",
      importMod "pandas" "pd",
      importMod "matplotlib.pyplot" "plt",
      importFrom "ray" ["tune"],
      importFrom "neuralforecast.auto" ["AutoNHITS"],
      importFrom "neuralforecast.core" ["NeuralForecast"],
      importFrom "neuralforecast.losses.pytorch" ["MAE"],
      importFrom "neuralforecast.losses.numpy" ["mae", "mse"],
      importFrom "datasetsforecast.long_horizon" ["LongHorizon"] ]

/-- Cell 3 (code): silence the pytorch-lightning logger. -/
def cellLogging : Cell :=
  Cell.code
    [ importMod "logging" "logging",
      exprStmt (call
        (attr (call (attr (name "logging") "getLogger")
          (listE [strLit "pytorch_lightning"]) (listK [])) "setLevel")
        (listE [attr (name "logging") "WARNING"]) (listK [])) ]

/-- Cell 4 (code): `torch.cuda.is_available()`. -/
def cellCuda : Cell :=
  Cell.code
    [ exprStmt (call (attr (attr (name "torch") "cuda") "is_available")
        (listE []) (listK [])) ]

/-- Cell 5 (code): load the ETTm2 dataset and compute the split sizes. -/
def cellLoad : Cell :=
  Cell.code
    [ assign (listE [tupleLit (listE [name "Y_df", name "_", name "_"])])
        (call (attr (name "LongHorizon") "load") (listE [])
          (listK [("directory", strLit "./"), ("group", strLit "ETTm2")])),
      assign (listE [subscript (name "Y_df") (strLit "ds")])
        (call (attr (name "pd") "to_datetime")
          (listE [subscript (name "Y_df") (strLit "ds")]) (listK [])),
      assign (listE [name "n_time"])
        (call (name "len")
          (listE [call (attr (attr (name "Y_df") "ds") "unique")
            (listE []) (listK [])]) (listK [])),
      assign (listE [name "val_size"])
        (call (name "int")
          (listE [binOp "*" (sciLit 2 (-1)) (name "n_time")]) (listK [])),
      assign (listE [name "test_size"])
        (call (name "int")
          (listE [binOp "*" (sciLit 2 (-1)) (name "n_time")]) (listK [])),
      exprStmt (call
        (attr (call (attr (name "Y_df") "groupby")
          (listE [strLit "unique_id"]) (listK [])) "head")
        (listE [intLit 2]) (listK [])) ]

/-- Cell 6 (code): plot the HUFL series and the split markers. -/
def cellSplitPlot : Cell :=
  Cell.code
    [ assign (listE [name "u_id"]) (strLit "HUFL"),
      assign (listE [name "x_plot"])
        (call (attr (name "pd") "to_datetime")
          (listE [attr
            (subscript (name "Y_df")
              (cmpOp "==" (attr (name "Y_df") "unique_id") (name "u_id")))
            "ds"]) (listK [])),
      assign (listE [name "y_plot"])
        (attr (attr
          (subscript (name "Y_df")
            (cmpOp "==" (attr (name "Y_df") "unique_id") (name "u_id")))
          "y") "values"),
      assign (listE [name "x_val"])
        (subscript (name "x_plot")
          (binOp "-" (binOp "-" (name "n_time") (name "val_size"))
            (name "test_size"))),
      assign (listE [name "x_test"])
        (subscript (name "x_plot") (binOp "-" (name "n_time") (name "test_size"))),
      assign (listE [name "fig"])
        (call (attr (name "plt") "figure") (listE [])
          (listK [("figsize", tupleLit (listE [intLit 10, intLit 5]))])),
      exprStmt (call (attr (name "fig") "tight_layout") (listE []) (listK [])),
      exprStmt (call (attr (name "plt") "plot")
        (listE [name "x_plot", name "y_plot"]) (listK [])),
      exprStmt (call (attr (name "plt") "xlabel")
        (listE [strLit "Date"]) (listK [("fontsize", intLit 17)])),
      exprStmt (call (attr (name "plt") "ylabel")
        (listE [strLit "HUFL [15 min temperature]"])
        (listK [("fontsize", intLit 17)])),
      exprStmt (call (attr (name "plt") "axvline")
        (listE [name "x_val"])
        (listK [("color", strLit "black"), ("linestyle", strLit "-.")])),
      exprStmt (call (attr (name "plt") "axvline")
        (listE [name "x_test"])
        (listK [("color", strLit "black"), ("linestyle", strLit "-.")])),
      exprStmt (call (attr (name "plt") "text")
        (listE [name "x_val", intLit 5, strLit "  Validation"])
        (listK [("fontsize", intLit 12)])),
      exprStmt (call (attr (name "plt") "text")
        (listE [name "x_test", intLit 5, strLit "  Test"])
        (listK [("fontsize", intLit 12)])),
      exprStmt (call (attr (name "plt") "grid") (listE []) (listK [])),
      exprStmt (call (attr (name "plt") "show") (listE []) (listK [])),
      exprStmt (call (attr (name "plt") "close") (listE []) (listK [])) ]

/-- Cell 7 (code): `Y_df.unique_id.unique()`. -/
def cellUniqueIds : Cell :=
  Cell.code
    [ exprStmt (call (attr (attr (name "Y_df") "unique_id") "unique")
        (listE []) (listK [])) ]

/-- Cell 8 (code): the horizon and the `nhits_config` search-space dictionary. -/
def cellConfig : Cell :=
  Cell.code
    [ assign (listE [name "horizon"]) (intLit 96),
      assign (listE [name "nhits_config"])
        (dictLit (listK [
          ("learning_rate",
            call (attr (name "tune") "choice")
              (listE [listLit (listE [sciLit 1 (-3)])]) (listK [])),
          ("max_steps",
            call (attr (name "tune") "choice")
              (listE [listLit (listE [intLit 1000])]) (listK [])),
          ("input_size",
            call (attr (name "tune") "choice")
              (listE [listLit (listE [binOp "*" (intLit 5) (name "horizon")])])
              (listK [])),
          ("batch_size",
            call (attr (name "tune") "choice")
              (listE [listLit (listE [intLit 7])]) (listK [])),
          ("windows_batch_size",
            call (attr (name "tune") "choice")
              (listE [listLit (listE [intLit 256])]) (listK [])),
          ("n_pool_kernel_size",
            call (attr (name "tune") "choice")
              (listE [listLit (listE [
                listLit (listE [intLit 2, intLit 2, intLit 2]),
                listLit (listE [intLit 16, intLit 8, intLit 1])])])
              (listK [])),
          ("n_freq_downsample",
            call (attr (name "tune") "choice")
              (listE [listLit (listE [
                listLit (listE [intLit 168, intLit 24, intLit 1]),
                listLit (listE [intLit 24, intLit 12, intLit 1]),
                listLit (listE [intLit 1, intLit 1, intLit 1])])])
              (listK [])),
          ("activation",
            call (attr (name "tune") "choice")
              (listE [listLit (listE [strLit "ReLU"])]) (listK [])),
          ("n_blocks",
            call (attr (name "tune") "choice")
              (listE [listLit (listE [
                listLit (listE [intLit 1, intLit 1, intLit 1])])]) (listK [])),
          ("mlp_units",
            call (attr (name "tune") "choice")
              (listE [listLit (listE [listLit (listE [
                listLit (listE [intLit 512, intLit 512]),
                listLit (listE [intLit 512, intLit 512]),
                listLit (listE [intLit 512, intLit 512])])])]) (listK [])),
          ("interpolation_mode",
            call (attr (name "tune") "choice")
              (listE [listLit (listE [strLit "linear"])]) (listK [])),
          ("random_seed",
            call (attr (name "tune") "randint")
              (listE [intLit 1, intLit 10]) (listK []))])) ]

/-- Cell 9 (code): construct the `NeuralForecast` object and run
`cross_validation`. -/
def cellFit : Cell :=
  Cell.code
    [ magic "%%capture",
      assign (listE [name "fcst"])
        (call (name "NeuralForecast") (listE [])
          (listK [
            ("models", listLit (listE [
              call (name "AutoNHITS") (listE [])
                (listK [("h", name "horizon"),
                        ("config", name "nhits_config"),
                        ("num_samples", intLit 5)])])),
            ("freq", strLit "15min")])),
      assign (listE [name "fcst_df"])
        (call (attr (name "fcst") "cross_validation") (listE [])
          (listK [("df", name "Y_df"),
                  ("val_size", name "val_size"),
                  ("test_size", name "test_size"),
                  ("n_windows", name "None")])) ]

/-- Cell 10 (code): inspect the best tuning result. -/
def cellBestResult : Cell :=
  Cell.code
    [ exprStmt (attr
        (call (attr (attr
          (subscript (attr (name "fcst") "models") (intLit 0))
          "results") "get_best_result") (listE []) (listK []))
        "config") ]

/-- Cell 11 (code): extract `y_true` / `y_hat` and reshape them. -/
def cellReshape : Cell :=
  Cell.code
    [ assign (listE [name "y_true"]) (attr (attr (name "fcst_df") "y") "values"),
      assign (listE [name "y_hat"])
        (attr (subscript (name "fcst_df") (strLit "AutoNHITS")) "values"),
      assign (listE [name "n_series"])
        (call (name "len")
          (listE [call (attr (attr (name "Y_df") "unique_id") "unique")
            (listE []) (listK [])]) (listK [])),
      assign (listE [name "y_true"])
        (call (attr (name "y_true") "reshape")
          (listE [name "n_series", intLit (-1), name "horizon"]) (listK [])),
      assign (listE [name "y_hat"])
        (call (attr (name "y_hat") "reshape")
          (listE [name "n_series", intLit (-1), name "horizon"]) (listK [])),
      exprStmt (call (name "print") (listE [strLit "Parsed results"]) (listK [])),
      exprStmt (call (name "print")
        (listE [strLit "2. y_true.shape (n_series, n_windows, n_time_out):\t",
          attr (name "y_true") "shape"]) (listK [])),
      exprStmt (call (name "print")
        (listE [strLit "2. y_hat.shape  (n_series, n_windows, n_time_out):\t",
          attr (name "y_hat") "shape"]) (listK [])) ]

/-- Cell 12 (code): plot three forecast windows. -/
def cellWindowsPlot : Cell :=
  Cell.code
    [ assign (listE [tupleLit (listE [name "fig", name "axs"])])
        (call (attr (name "plt") "subplots") (listE [])
          (listK [("nrows", intLit 3), ("ncols", intLit 1),
                  ("figsize", tupleLit (listE [intLit 10, intLit 11]))])),
      exprStmt (call (attr (name "fig") "tight_layout") (listE []) (listK [])),
      assign (listE [name "series"])
        (listLit (listE [strLit "HUFL", strLit "HULL", strLit "LUFL",
          strLit "LULL", strLit "MUFL", strLit "MULL", strLit "OT"])),
      assign (listE [name "series_idx"]) (intLit 3),
      forLoop (tupleLit (listE [name "idx", name "w_idx"]))
        (call (name "enumerate")
          (listE [listLit (listE [intLit 200, intLit 300, intLit 400])])
          (listK []))
        (listS [
          exprStmt (call (attr (subscript (name "axs") (name "idx")) "plot")
            (listE [subscript (name "y_true")
              (tupleLit (listE [name "series_idx", name "w_idx", sliceAll]))])
            (listK [("label", strLit "True")])),
          exprStmt (call (attr (subscript (name "axs") (name "idx")) "plot")
            (listE [subscript (name "y_hat")
              (tupleLit (listE [name "series_idx", name "w_idx", sliceAll]))])
            (listK [("label", strLit "Forecast")])),
          exprStmt (call (attr (subscript (name "axs") (name "idx")) "grid")
            (listE []) (listK [])),
          exprStmt (call (attr (subscript (name "axs") (name "idx")) "set_ylabel")
            (listE [binOp "+" (subscript (name "series") (name "series_idx"))
              (fstr (listE [strLit " window ", name "w_idx"]))])
            (listK [("fontsize", intLit 17)])),
          ifStmt (cmpOp "==" (name "idx") (intLit 2))
            (listS [
              exprStmt (call
                (attr (subscript (name "axs") (name "idx")) "set_xlabel")
                (listE [strLit "Forecast Horizon"])
                (listK [("fontsize", intLit 17)]))])
            (listS []) ]),
      exprStmt (call (attr (name "plt") "legend") (listE []) (listK [])),
      exprStmt (call (attr (name "plt") "show") (listE []) (listK [])),
      exprStmt (call (attr (name "plt") "close") (listE []) (listK [])) ]

/-- Cell 13 (code): print the MAE and MSE test errors. -/
def cellMetrics : Cell :=
  Cell.code
    [ exprStmt (call (name "print")
        (listE [strLit "MAE: ",
          call (name "mae") (listE [name "y_hat", name "y_true"]) (listK [])])
        (listK [])),
      exprStmt (call (name "print")
        (listE [strLit "MSE: ",
          call (name "mse") (listE [name "y_hat", name "y_true"]) (listK [])])
        (listK [])) ]

/-- Cell 14 (code): the trailing empty cell. -/
def cellEmpty : Cell := Cell.code []

/-- The full notebook, all 28 cells in order (markdown prose elided). -/
def notebook : List Cell :=
  [ Cell.markdown "Long-Horizon Forecast",
    Cell.markdown "NHITS intro",
    Cell.markdown "Colab badge",
    Cell.markdown "1. Installing NeuralForecast",
    cellInstall,
    cellImports,
    cellLogging,
    Cell.markdown "GPU note",
    cellCuda,
    Cell.markdown "2. Load ETTm2 Data",
    cellLoad,
    cellSplitPlot,
    cellUniqueIds,
    Cell.markdown "3. Define Hyperparameter Space",
    cellConfig,
    Cell.markdown "config override note",
    Cell.markdown "ray tune tip",
    Cell.markdown "NeuralForecast parameters",
    Cell.markdown "cross_validation description",
    cellFit,
    Cell.markdown "5. Evaluate Results",
    cellBestResult,
    cellReshape,
    cellWindowsPlot,
    Cell.markdown "metric formulas",
    cellMetrics,
    Cell.markdown "reference results table",
    cellEmpty ]

/-! ## Syntactic analyses of the transcription -/

/- All statements of the notebook in execution order, with loop and branch
bodies flattened in (each body statement listed once, after its header). -/
mutual

def stmtFlat : PyStmt → List PyStmt
  | PyStmt.forLoop t it b => PyStmt.forLoop t it b :: stmtsFlat b
  | PyStmt.ifStmt c t e => PyStmt.ifStmt c t e :: (stmtsFlat t ++ stmtsFlat e)
  | PyStmt.tryStmt b h => PyStmt.tryStmt b h :: (stmtsFlat b ++ stmtsFlat h)
  | PyStmt.funcDef n p a b => PyStmt.funcDef n p a b :: stmtsFlat b
  | PyStmt.classDef n b => PyStmt.classDef n b :: stmtsFlat b
  | s => [s]

def stmtsFlat : PyStmts → List PyStmt
  | PyStmts.nil => []
  | PyStmts.cons s rest => stmtFlat s ++ stmtsFlat rest

end

/-- The statements of a cell (markdown cells have none). -/
def cellStmts : Cell → List PyStmt
  | Cell.markdown _ => []
  | Cell.code ss => ss

/-- Every statement of a notebook, flattened, in order. -/
def allStmts (nb : List Cell) : List PyStmt :=
  nb.flatMap (fun c => (cellStmts c).flatMap stmtFlat)

/-- The code cells of a notebook. -/
def codeCells (nb : List Cell) : List Cell :=
  nb.filter (fun c => match c with | Cell.code _ => true | _ => false)

/- Every subexpression of an expression (the expression itself included). -/
mutual

def subExprs : PyExpr → List PyExpr
  | PyExpr.name s => [PyExpr.name s]
  | PyExpr.intLit n => [PyExpr.intLit n]
  | PyExpr.sciLit m e => [PyExpr.sciLit m e]
  | PyExpr.strLit s => [PyExpr.strLit s]
  | PyExpr.sliceAll => [PyExpr.sliceAll]
  | PyExpr.attr e f => PyExpr.attr e f :: subExprs e
  | PyExpr.call f args kw =>
      PyExpr.call f args kw :: (subExprs f ++ subExprsL args ++ subExprsK kw)
  | PyExpr.subscript e i => PyExpr.subscript e i :: (subExprs e ++ subExprs i)
  | PyExpr.listLit xs => PyExpr.listLit xs :: subExprsL xs
  | PyExpr.tupleLit xs => PyExpr.tupleLit xs :: subExprsL xs
  | PyExpr.dictLit es => PyExpr.dictLit es :: subExprsK es
  | PyExpr.binOp op a b => PyExpr.binOp op a b :: (subExprs a ++ subExprs b)
  | PyExpr.cmpOp op a b => PyExpr.cmpOp op a b :: (subExprs a ++ subExprs b)
  | PyExpr.fstr parts => PyExpr.fstr parts :: subExprsL parts
  | PyExpr.awaitE e => PyExpr.awaitE e :: subExprs e

def subExprsL : PyExprs → List PyExpr
  | PyExprs.nil => []
  | PyExprs.cons e rest => subExprs e ++ subExprsL rest

def subExprsK : PyKwargs → List PyExpr
  | PyKwargs.nil => []
  | PyKwargs.cons _ v rest => subExprs v ++ subExprsK rest

end

/-- Convert a `PyExprs` argument list back to a `List`. -/
def exprsToList : PyExprs → List PyExpr
  | PyExprs.nil => []
  | PyExprs.cons e rest => e :: exprsToList rest

/-- Convert a `PyKwargs` keyword list back to a `List` of pairs. -/
def kwargsToList : PyKwargs → List (String × PyExpr)
  | PyKwargs.nil => []
  | PyKwargs.cons k v rest => (k, v) :: kwargsToList rest

/-- The outermost expressions occurring directly in a statement (loop and
branch bodies are reached through `stmtFlat`, not here). -/
def stmtTopExprs : PyStmt → List PyExpr
  | PyStmt.assign ts v => exprsToList ts ++ [v]
  | PyStmt.exprStmt e => [e]
  | PyStmt.forLoop t it _ => [t, it]
  | PyStmt.ifStmt c _ _ => [c]
  | PyStmt.raiseStmt e => [e]
  | _ => []

/-- All subexpressions occurring in a statement. -/
def stmtExprs (s : PyStmt) : List PyExpr :=
  (stmtTopExprs s).flatMap subExprs

/-- Every expression of a notebook (all subexpressions of all statements). -/
def allExprs (nb : List Cell) : List PyExpr :=
  (allStmts nb).flatMap stmtExprs

/-- The base name of an access chain: `fcst.cross_validation` has root
`fcst`, `Y_df[mask].y` has root `Y_df`, `tune.choice([...])` has root
`tune`. -/
def rootName : PyExpr → Option String
  | PyExpr.name s => some s
  | PyExpr.attr e _ => rootName e
  | PyExpr.subscript e _ => rootName e
  | PyExpr.call f _ _ => rootName f
  | _ => none

/-- The callees of every call occurring in a statement. -/
def stmtCallees (s : PyStmt) : List PyExpr :=
  (stmtExprs s).filterMap fun e =>
    match e with
    | PyExpr.call f _ _ => some f
    | _ => none

/-- The root names of every call occurring in a statement. -/
def stmtCallRoots (s : PyStmt) : List String :=
  (stmtCallees s).filterMap rootName

/-! ## Top-level operation phases (claims C1, C2) -/

/-- The five top-level operations the specification describes: load the
dataset, define the static search space, construct the forecasting object,
run cross-validation, evaluate the mae/mse metrics. -/
inductive Phase where
  | loadData
  | defineConfig
  | constructForecaster
  | runCrossValidation
  | evalMetrics
deriving DecidableEq, Repr

/-- Does the expression contain a call whose callee is the method `m` of the
object named `obj`? -/
def containsMethodCall (e : PyExpr) (obj m : String) : Bool :=
  (subExprs e).any fun se =>
    match se with
    | PyExpr.call (PyExpr.attr b f) _ _ =>
        f == m && (match b with | PyExpr.name o => o == obj | _ => false)
    | _ => false

/-- Does the expression contain a call to the bare name `f`? -/
def containsCallOf (e : PyExpr) (f : String) : Bool :=
  (subExprs e).any fun se =>
    match se with
    | PyExpr.call (PyExpr.name g) _ _ => g == f
    | _ => false

/-- Does the expression contain a call to a method named `m` (any object)? -/
def containsMethodNamed (e : PyExpr) (m : String) : Bool :=
  (subExprs e).any fun se =>
    match se with
    | PyExpr.call (PyExpr.attr _ f) _ _ => f == m
    | _ => false

/-- Is the statement an assignment whose single target is the name `x`? -/
def assignsName (s : PyStmt) (x : String) : Bool :=
  match s with
  | PyStmt.assign (PyExprs.cons (PyExpr.name y) PyExprs.nil) _ => y == x
  | _ => false

/-- Classify a statement as one of the five top-level operation phases, or
none.  The classification is purely syntactic, read off the source:
`LongHorizon.load` marks the dataset load, the assignment to `nhits_config`
marks the search-space definition, a `NeuralForecast(...)` call marks the
forecaster construction, a `.cross_validation(...)` call marks
cross-validation, and a `mae`/`mse` call marks metric evaluation. -/
def stmtPhase (s : PyStmt) : Option Phase :=
  let es := stmtExprs s
  if es.any (fun e => containsMethodCall e "LongHorizon" "load") then
    some Phase.loadData
  else if assignsName s "nhits_config" then
    some Phase.defineConfig
  else if es.any (fun e => containsCallOf e "NeuralForecast") then
    some Phase.constructForecaster
  else if es.any (fun e => containsMethodNamed e "cross_validation") then
    some Phase.runCrossValidation
  else if es.any (fun e => containsCallOf e "mae" || containsCallOf e "mse") then
    some Phase.evalMetrics
  else
    none

/-- The phases touched by one cell, adjacent duplicates inside the cell
merged (the metrics cell computes `mae` and `mse` in two statements of the
single metric-evaluation step). -/
def cellOps (c : Cell) : List Phase :=
  (((cellStmts c).flatMap stmtFlat).filterMap stmtPhase).dedup

/-- The sequence of top-level operations of the notebook, cell by cell. -/
def notebookOps (nb : List Cell) : List Phase :=
  nb.flatMap cellOps

/-! ## Imports and value provenance (claims C2, C7) -/

/-- The root package of a dotted module path:
`rootModule "neuralforecast.auto" = "neuralforecast"`. -/
def rootModule (m : String) : String :=
  String.mk (m.data.takeWhile (· ≠ '.'))

/-- The names an import statement binds, each with the root package it comes
from. -/
def importEntries : PyStmt → List (String × String)
  | PyStmt.importMod m a => [(a, rootModule m)]
  | PyStmt.importFrom m ns => ns.map (fun x => (x, rootModule m))
  | _ => []

/-- The names a simple assignment target binds (a single name, or the names
of a tuple-unpacking target). -/
def targetNames : PyExprs → List String
  | PyExprs.cons (PyExpr.name x) PyExprs.nil => [x]
  | PyExprs.cons (PyExpr.tupleLit xs) PyExprs.nil =>
      (exprsToList xs).filterMap fun e =>
        match e with
        | PyExpr.name x => some x
        | _ => none
  | _ => []

/-- One step of the provenance environment: an import binds its names to
their packages; an assignment whose right-hand side is rooted in an already
bound name propagates that binding to its targets (so `fcst`, built by
`NeuralForecast(...)`, is bound to `neuralforecast`, and `fcst_df`, built by
`fcst.cross_validation(...)`, inherits it). -/
def envStep (env : List (String × String)) (s : PyStmt) : List (String × String) :=
  match s with
  | PyStmt.importMod m a => importEntries (PyStmt.importMod m a) ++ env
  | PyStmt.importFrom m ns => importEntries (PyStmt.importFrom m ns) ++ env
  | PyStmt.assign ts v =>
      match rootName v with
      | some r =>
          match env.lookup r with
          | some lib => (targetNames ts).map (fun x => (x, lib)) ++ env
          | none => env
      | none => env
  | _ => env

/-- The provenance environment after executing the whole notebook: which
external package each bound name ultimately comes from. -/
def provEnv (nb : List Cell) : List (String × String) :=
  (allStmts nb).foldl envStep []

/-- The external packages that perform the substantive work. -/
def substantiveLibs : List String := ["neuralforecast", "ray", "datasetsforecast"]

/-- Every call made by a substantive (phase-classified) statement resolves,
through the provenance environment, to one of the three substantive external
packages — except the builtin `print` used for display. -/
def substantiveCallsExternal (nb : List Cell) : Bool :=
  (allStmts nb).all fun s =>
    match stmtPhase s with
    | none => true
    | some _ =>
        (stmtCallRoots s).all fun r =>
          r == "print" ||
            (match (provEnv nb).lookup r with
             | some lib => substantiveLibs.contains lib
             | none => false)

/-- The root packages imported by the notebook, in order of first import. -/
def importedRoots (nb : List Cell) : List String :=
  ((allStmts nb).flatMap fun s =>
    match s with
    | PyStmt.importMod m _ => [rootModule m]
    | PyStmt.importFrom m _ => [rootModule m]
    | _ => []).dedup

/-! ## Statement-shape counters (claims C2, C4, C7) -/

def tryStmtCount (nb : List Cell) : Nat :=
  (allStmts nb).countP fun s =>
    match s with | PyStmt.tryStmt _ _ => true | _ => false

def raiseStmtCount (nb : List Cell) : Nat :=
  (allStmts nb).countP fun s =>
    match s with | PyStmt.raiseStmt _ => true | _ => false

def funcDefCount (nb : List Cell) : Nat :=
  (allStmts nb).countP fun s =>
    match s with | PyStmt.funcDef _ _ _ _ => true | _ => false

def classDefCount (nb : List Cell) : Nat :=
  (allStmts nb).countP fun s =>
    match s with | PyStmt.classDef _ _ => true | _ => false

def awaitCount (nb : List Cell) : Nat :=
  (allExprs nb).countP fun e =>
    match e with | PyExpr.awaitE _ => true | _ => false

/-- The conditions of all `if` statements of the notebook. -/
def ifConds (nb : List Cell) : List PyExpr :=
  (allStmts nb).filterMap fun s =>
    match s with | PyStmt.ifStmt c _ _ => some c | _ => none

/-- The command texts of all shell escapes (`!cmd`) of the notebook. -/
def shellTexts (nb : List Cell) : List String :=
  (allStmts nb).filterMap fun s =>
    match s with | PyStmt.shell c => some c | _ => none

/-! ## Column accesses on `Y_df` (claim C3) -/

/-- Is the expression the bare name `Y_df`? -/
def isYdfName : PyExpr → Bool
  | PyExpr.name s => s == "Y_df"
  | _ => false

/-- Is the expression a subscript of the bare name `Y_df` (a row selection
such as `Y_df[Y_df.unique_id == u_id]`)? -/
def isYdfSub : PyExpr → Bool
  | PyExpr.subscript b _ => isYdfName b
  | _ => false

/-- The column named by a string-keyed `groupby('c')` call on `Y_df`
(`b` is the method call's receiver, `m` its method name, `args` its
arguments). -/
def ydfGroupbyArg (b : PyExpr) (m : String) (args : PyExprs) : List String :=
  match m, args with
  | "groupby", PyExprs.cons (PyExpr.strLit s) PyExprs.nil =>
      if isYdfName b then [s] else []
  | _, _ => []

/- The column names through which an expression accesses the frame `Y_df`:
string subscripts `Y_df['c']`, attribute reads `Y_df.c` or `Y_df[mask].c`
(attribute reads in callee position are method calls such as `.groupby` or
`.head`, not column reads, and are skipped), and the string key of
`Y_df.groupby('c')`. -/
mutual

def ydfCols : PyExpr → List String
  | PyExpr.attr b f =>
      (if isYdfName b || isYdfSub b then [f] else []) ++ ydfCols b
  | PyExpr.subscript b i =>
      (match b, i with
       | PyExpr.name "Y_df", PyExpr.strLit s => [s]
       | _, _ => []) ++ ydfCols b ++ ydfCols i
  | PyExpr.call (PyExpr.attr b m) args kw =>
      ydfCols b ++ ydfGroupbyArg b m args ++ ydfColsL args ++ ydfColsK kw
  | PyExpr.call f args kw =>
      ydfCols f ++ ydfColsL args ++ ydfColsK kw
  | PyExpr.listLit xs => ydfColsL xs
  | PyExpr.tupleLit xs => ydfColsL xs
  | PyExpr.fstr xs => ydfColsL xs
  | PyExpr.dictLit es => ydfColsK es
  | PyExpr.binOp _ a b => ydfCols a ++ ydfCols b
  | PyExpr.cmpOp _ a b => ydfCols a ++ ydfCols b
  | PyExpr.awaitE e => ydfCols e
  | _ => []

def ydfColsL : PyExprs → List String
  | PyExprs.nil => []
  | PyExprs.cons e rest => ydfCols e ++ ydfColsL rest

def ydfColsK : PyKwargs → List String
  | PyKwargs.nil => []
  | PyKwargs.cons _ v rest => ydfCols v ++ ydfColsK rest

end

/-- Every column access the notebook makes on `Y_df`, in source order. -/
def ydfAllCols (nb : List Cell) : List String :=
  (allStmts nb).flatMap fun s => (stmtTopExprs s).flatMap ydfCols

/-! ## The `nhits_config` dictionary (claim C6) -/

/-- The right-hand side of the assignment to `nhits_config`. -/
def configAssignValue (nb : List Cell) : Option PyExpr :=
  ((allStmts nb).filterMap fun s =>
    match s with
    | PyStmt.assign (PyExprs.cons (PyExpr.name "nhits_config") PyExprs.nil) v =>
        some v
    | _ => none).head?

/-- The entries of the `nhits_config` dictionary literal. -/
def nhitsConfigEntries (nb : List Cell) : List (String × PyExpr) :=
  match configAssignValue nb with
  | some (PyExpr.dictLit es) => kwargsToList es
  | _ => []

/-- Which `ray.tune` domain constructor an expression is a call to, if any:
`tune.choice([...])` gives `some "choice"`, `tune.randint(a, b)` gives
`some "randint"`. -/
def tuneKind : PyExpr → Option String
  | PyExpr.call (PyExpr.attr (PyExpr.name "tune") m) _ _ => some m
  | _ => none

/-! ## Numeric models (claims C8, C9, C10)

The arithmetic of the notebook's split sizes, split-marker index and
reshape calls, modelled exactly.  Python's float literal `.2` is modelled
as the exact rational `2/10`, and `int()` as truncation toward zero on
rationals. -/

/-- Python `int()` applied to an exact rational: truncation toward zero. -/
def pyInt (q : ℚ) : ℤ :=
  if q < 0 then -⌊-q⌋ else ⌊q⌋

/-- `val_size = int(.2 * n_time)` from the data-loading cell. -/
def val_size (n_time : ℕ) : ℤ :=
  pyInt ((2 / 10 : ℚ) * n_time)

/-- `test_size = int(.2 * n_time)` from the data-loading cell. -/
def test_size (n_time : ℕ) : ℤ :=
  pyInt ((2 / 10 : ℚ) * n_time)

/-- The index used by `x_test = x_plot[n_time - test_size]` in the
split-plot cell (`x_plot` holds the `n_time` timestamps of the plotted
series). -/
def x_test_index (n_time : ℕ) : ℕ :=
  n_time - (test_size n_time).toNat

/-- A row of the cross-validation result frame `fcst_df`, with its ground
truth column `y` and its forecast column `AutoNHITS` (values are modelled
as exact rationals; only the column lengths matter to the claims). -/
structure CVRow where
  y : ℚ
  autoNHITS : ℚ

/-- `y_true = fcst_df.y.values`. -/
def y_true_col (df : List CVRow) : List ℚ :=
  df.map CVRow.y

/-- `y_hat = fcst_df['AutoNHITS'].values`. -/
def y_hat_col (df : List CVRow) : List ℚ :=
  df.map CVRow.autoNHITS

/-- The shape computation of numpy `reshape(a, -1, c)` on an array of
length `len`: the unknown middle dimension is `len / (a * c)`, defined
exactly when `a * c` is positive and divides `len`; otherwise the reshape
raises. -/
def reshape3Shape (len a c : ℕ) : Option (ℕ × ℕ × ℕ) :=
  if 0 < a * c ∧ a * c ∣ len then some (a, len / (a * c), c) else none

/-- An IPython shell escape (`!cmd`) runs its command in a child process of
the kernel; no other statement form of the notebook starts a thread,
process, or asynchronous task. -/
def spawnsChildProcess : PyStmt → Bool
  | PyStmt.shell _ => true
  | _ => false

/-! ## Helper lemmas on the split sizes -/

lemma test_size_eq_floor (n : ℕ) : test_size n = ⌊(2 / 10 : ℚ) * n⌋ := by
  unfold test_size pyInt
  rw [if_neg (not_lt.mpr (by positivity))]

lemma test_size_toNat (n : ℕ) : (test_size n).toNat = n / 5 := by
  rw [test_size_eq_floor, show (2 / 10 : ℚ) * n = (n : ℚ) / 5 by ring,
    Int.floor_toNat]
  exact Nat.floor_div_eq_div n 5

lemma test_size_nonneg (n : ℕ) : 0 ≤ test_size n := by
  rw [test_size_eq_floor]
  exact Int.floor_nonneg.mpr (by positivity)

lemma test_size_eq_div (n : ℕ) : test_size n = ((n / 5 : ℕ) : ℤ) := by
  have h1 := test_size_toNat n
  have h2 := test_size_nonneg n
  omega

/-! ## The claims -/

/-- C1: The notebook's top-level operations occur in exactly this order,
each once: load the dataset (`LongHorizon.load` producing `Y_df`), define
the static search-space configuration (`nhits_config`), construct the
forecasting object (`NeuralForecast` with an `AutoNHITS` model), run
`cross_validation`, and finally print the `mae` and `mse` metrics on the
cross-validation output; no statement of the notebook is classified into
any further substantive operation. -/
theorem C1_top_level_operation_order :
    notebookOps notebook =
      [Phase.loadData, Phase.defineConfig, Phase.constructForecaster,
       Phase.runCrossValidation, Phase.evalMetrics] := by
  rfl

/-- C2: The notebook defines no function or class of its own, and every
call made by a substantive statement (dataset load, search-space
definition, forecaster construction, cross-validation, loss computation)
resolves through the import/provenance environment to one of the external
packages `neuralforecast`, `ray` or `datasetsforecast` (with the builtin
`print` used only for display). -/
theorem C2_substantive_work_delegated :
    funcDefCount notebook = 0 ∧ classDefCount notebook = 0 ∧
    substantiveCallsExternal notebook = true := by
  refine ⟨rfl, rfl, rfl⟩

/-- C3: Every column access the notebook makes on the long-format table
`Y_df` is through one of the three roles `unique_id` (series identifier),
`ds` (timestamp) and `y` (value), and each of the three is accessed. -/
theorem C3_ydf_three_column_roles :
    ((ydfAllCols notebook).all (["unique_id", "ds", "y"].contains ·)) = true ∧
    "unique_id" ∈ ydfAllCols notebook ∧
    "ds" ∈ ydfAllCols notebook ∧
    "y" ∈ ydfAllCols notebook := by
  refine ⟨rfl, ?_, ?_, ?_⟩ <;> decide

/-- C4: The notebook performs no error handling of its own: it contains no
`try`/`except` statement and no `raise` statement, and its only conditional
is the plot-label branch `if idx == 2:` of the windows-plot cell, so no
branch checks for or recovers from an error; every exception raised by a
library call propagates unhandled. -/
theorem C4_no_error_handling :
    tryStmtCount notebook = 0 ∧ raiseStmtCount notebook = 0 ∧
    ifConds notebook =
      [PyExpr.cmpOp "==" (PyExpr.name "idx") (PyExpr.intLit 2)] := by
  refine ⟨rfl, rfl, rfl⟩

/-- C5: The notebook has 14 code cells (one of them the trailing empty
cell), which is approximately 15: it differs from 15 by at most 1. -/
theorem C5_code_cell_count :
    (codeCells notebook).length = 14 ∧
    Nat.dist (codeCells notebook).length 15 ≤ 1 := by
  refine ⟨rfl, by decide⟩

/-- C6: The search-space description `nhits_config` is a dictionary with
exactly twelve hyperparameter keys, whose every value is a `ray.tune`
domain: eleven `tune.choice` domains and one `tune.randint` domain, and no
value lies outside the tune domain constructors. -/
theorem C6_nhits_config_tune_domains :
    (nhitsConfigEntries notebook).map Prod.fst =
      ["learning_rate", "max_steps", "input_size", "batch_size",
       "windows_batch_size", "n_pool_kernel_size", "n_freq_downsample",
       "activation", "n_blocks", "mlp_units", "interpolation_mode",
       "random_seed"] ∧
    (nhitsConfigEntries notebook).map (fun p => tuneKind p.snd) =
      [some "choice", some "choice", some "choice", some "choice",
       some "choice", some "choice", some "choice", some "choice",
       some "choice", some "choice", some "choice", some "randint"] ∧
    ((nhitsConfigEntries notebook).map (fun p => tuneKind p.snd)).count
      (some "choice") = 11 ∧
    ((nhitsConfigEntries notebook).map (fun p => tuneKind p.snd)).count
      (some "randint") = 1 ∧
    ((nhitsConfigEntries notebook).all (fun p => (tuneKind p.snd).isSome)) =
      true := by
  refine ⟨rfl, rfl, by decide, by decide, rfl⟩

/-- C7 counterexample: the claim says no cell creates a thread, process, or
asynchronous task; but the install cell's shell escape
`!pip install neuralforecast datasetsforecast` runs pip in a child process
of the kernel, so a process-creating statement does occur in the notebook. -/
theorem C7_counterexample_pip_shell_process :
    (allStmts notebook).any spawnsChildProcess = true := by
  rfl

/-- C7 (amended): apart from the synchronous `!pip install` shell escape of
the install cell (the notebook's single process-creating statement, which
blocks until pip finishes), the notebook issues only synchronous,
single-threaded calls into external libraries: it imports no threading,
multiprocessing, async or subprocess machinery, contains no `await` and
defines no function (so no callback or task), and its statements execute
strictly in sequence. -/
theorem C7_no_concurrency_beyond_pip_shell :
    ((allStmts notebook).filter spawnsChildProcess).length = 1 ∧
    shellTexts notebook = ["pip install neuralforecast datasetsforecast"] ∧
    awaitCount notebook = 0 ∧ funcDefCount notebook = 0 ∧
    importedRoots notebook =
      ["torch", "numpy", "pandas", "matplotlib", "ray", "neuralforecast",
       "datasetsforecast", "logging"] ∧
    (["threading", "multiprocessing", "asyncio", "concurrent",
      "subprocess"].all (fun m => !(importedRoots notebook).contains m)) =
      true := by
  refine ⟨rfl, rfl, rfl, rfl, rfl, rfl⟩

/-- C8: For every nonnegative `n_time`, the split sizes
`val_size = int(.2 * n_time)` and `test_size = int(.2 * n_time)` are equal,
their sum is at most `n_time`, and the remaining training region
`n_time - val_size - test_size` is nonnegative. -/
theorem C8_split_sizes_consistent (n_time : ℕ) :
    val_size n_time = test_size n_time ∧
    val_size n_time + test_size n_time ≤ (n_time : ℤ) ∧
    0 ≤ (n_time : ℤ) - val_size n_time - test_size n_time := by
  have h : test_size n_time = ((n_time / 5 : ℕ) : ℤ) := test_size_eq_div n_time
  have hv : val_size n_time = test_size n_time := rfl
  refine ⟨hv, ?_, ?_⟩ <;> rw [hv, h] <;> omega

/-- C9: The lookup `x_test = x_plot[n_time - test_size]` on the list of
`n_time` timestamps is in range exactly when `test_size ≥ 1`, i.e. exactly
when `n_time ≥ 5`; for every `n_time` with `1 ≤ n_time ≤ 4` the computed
`test_size` is `0` and the lookup addresses position `n_time`, one past the
last timestamp, so it fails (returns no value) rather than returning a
timestamp. -/
theorem C9_x_test_index_range {α : Type} (n : ℕ) (xs : List α)
    (h : xs.length = n) :
    (xs[x_test_index n]?.isSome = true ↔ 5 ≤ n) ∧
    (1 ≤ n → n ≤ 4 →
      test_size n = 0 ∧ xs[x_test_index n]? = none) := by
  have hidx : x_test_index n = n - n / 5 := by
    unfold x_test_index
    rw [test_size_toNat]
  constructor
  · constructor
    · intro hs
      by_contra hlt
      push_neg at hlt
      have h5 : n / 5 = 0 := by omega
      have hle : xs.length ≤ x_test_index n := by
        rw [hidx, h, h5]
        omega
      rw [List.getElem?_eq_none hle] at hs
      simp at hs
    · intro h5
      have hlt : x_test_index n < xs.length := by
        rw [hidx, h]
        omega
      rw [List.getElem?_eq_getElem hlt]
      rfl
  · intro h1 h4
    have hts : test_size n = 0 := by
      rw [test_size_eq_div]
      omega
    refine ⟨hts, List.getElem?_eq_none ?_⟩
    rw [hidx, h]
    omega

/-- Witness for C9 at the concrete input `n_time = 3`,
`x_plot = [0, 1, 2]`: the lookup is out of range and returns no value. -/
theorem C9_x_test_index_range_witness :
    ((([0, 1, 2] : List ℚ)[x_test_index 3]?.isSome = true ↔ 5 ≤ 3) ∧
     (1 ≤ 3 → 3 ≤ 4 →
       test_size 3 = 0 ∧ ([0, 1, 2] : List ℚ)[x_test_index 3]? = none)) :=
  C9_x_test_index_range 3 ([0, 1, 2] : List ℚ) rfl

/-- C10: `y_true` and `y_hat` are two columns of the same cross-validation
frame, so they have equal length; for positive `n_series` and `horizon`,
the reshape to `(n_series, -1, horizon)` succeeds exactly when that common
length is divisible by `n_series * horizon`, the two reshapes compute the
same shape, and under divisibility both shapes are
`(n_series, n_windows, horizon)` with
`n_windows = len / (n_series * horizon)`. -/
theorem C10_reshape_shapes (df : List CVRow) (n_series horizon : ℕ)
    (hn : 0 < n_series) (hh : 0 < horizon) :
    (y_true_col df).length = (y_hat_col df).length ∧
    ((reshape3Shape (y_true_col df).length n_series horizon).isSome = true ↔
      n_series * horizon ∣ df.length) ∧
    reshape3Shape (y_true_col df).length n_series horizon =
      reshape3Shape (y_hat_col df).length n_series horizon ∧
    (n_series * horizon ∣ df.length →
      reshape3Shape (y_true_col df).length n_series horizon =
        some (n_series, df.length / (n_series * horizon), horizon) ∧
      reshape3Shape (y_hat_col df).length n_series horizon =
        some (n_series, df.length / (n_series * horizon), horizon)) := by
  have hl1 : (y_true_col df).length = df.length := List.length_map _ _
  have hl2 : (y_hat_col df).length = df.length := List.length_map _ _
  have hpos : 0 < n_series * horizon := Nat.mul_pos hn hh
  refine ⟨hl1.trans hl2.symm, ?_, by rw [hl1, hl2], ?_⟩
  · rw [hl1]
    unfold reshape3Shape
    by_cases hd : n_series * horizon ∣ df.length
    · simp [hpos, hd]
    · simp [hd]
  · intro hd
    rw [hl1, hl2]
    unfold reshape3Shape
    simp [hpos, hd]

/-- Witness for C10 at the concrete input: a two-row frame with
`n_series = 1`, `horizon = 2`, where the reshape succeeds with shape
`(1, 1, 2)`. -/
theorem C10_reshape_shapes_witness :
    (y_true_col [(⟨0, 0⟩ : CVRow), ⟨1, 1⟩]).length =
      (y_hat_col [(⟨0, 0⟩ : CVRow), ⟨1, 1⟩]).length ∧
    ((reshape3Shape (y_true_col [(⟨0, 0⟩ : CVRow), ⟨1, 1⟩]).length 1 2).isSome =
        true ↔
      1 * 2 ∣ ([(⟨0, 0⟩ : CVRow), ⟨1, 1⟩] : List CVRow).length) ∧
    reshape3Shape (y_true_col [(⟨0, 0⟩ : CVRow), ⟨1, 1⟩]).length 1 2 =
      reshape3Shape (y_hat_col [(⟨0, 0⟩ : CVRow), ⟨1, 1⟩]).length 1 2 ∧
    (1 * 2 ∣ ([(⟨0, 0⟩ : CVRow), ⟨1, 1⟩] : List CVRow).length →
      reshape3Shape (y_true_col [(⟨0, 0⟩ : CVRow), ⟨1, 1⟩]).length 1 2 =
        some (1, ([(⟨0, 0⟩ : CVRow), ⟨1, 1⟩] : List CVRow).length / (1 * 2),
          2) ∧
      reshape3Shape (y_hat_col [(⟨0, 0⟩ : CVRow), ⟨1, 1⟩]).length 1 2 =
        some (1, ([(⟨0, 0⟩ : CVRow), ⟨1, 1⟩] : List CVRow).length / (1 * 2),
          2)) :=
  C10_reshape_shapes [(⟨0, 0⟩ : CVRow), ⟨1, 1⟩] 1 2 (by decide) (by decide)

end NB
